import Mathlib

/-!
Verification development for the iqdb_tagger repository
(`src/iqdb_tagger/__main__.py`), a reverse-image-search client that
uploads an image to an iqdb-family provider, parses the HTML results
page into match records, caches matches and scraped tags in a local
database, and supports batch processing over folders.

The Python source is shallowly embedded: the database (`models.*`,
whose module is not part of `src/`) is an explicit `Store` value
threaded through the functions, network calls are oracle parameters,
and exceptions are `Except` / explicit `raised` fields.  Functions
keep the source's names where Lean allows it.
-/

namespace IqdbTagger

/-- A (namespace, name) tag pair, `models.Tag`. -/
structure Tag where
  space : String
  name : String
  deriving DecidableEq, Repr

/-- One parsed match record, the dict returned by
`models.ImageMatch.parse_table` and enriched by `parse_iqdb_result_page`:
source link (`href`), thumbnail link, similarity (an integer percentage
on the 0–100 scale) and row status. -/
structure MatchRecord where
  href : Option String
  thumb : Option String
  similarity : Nat
  status : Nat
  deriving DecidableEq, Repr

/-- Status code for best-match rows, `models.ImageMatch.STATUS_BEST_MATCH`
(modelled from the spec: statuses are best / probable / possible /
"your image", derived from fixed page markers). -/
def STATUS_BEST_MATCH : Nat := 1

/-- One result table of the provider page, as seen by
`parse_iqdb_result_page`: what `models.ImageMatch.parse_table` returns
for it (`none` = row skipped: no parseable similarity/status; modelled
from the spec since `models` is not under `src/`), and the `href`
attributes of its `a` tags in document order. -/
structure Table where
  parsed : Option MatchRecord
  links : List (Option String)
  deriving DecidableEq, Repr

/-- The assertion message at `__main__.py:74`. -/
def malformedMsg : String := "Unexpected html received at parse_page. Malformed link"

/-- Embedding of `parse_iqdb_result_page` (`__main__.py:66-80`).
For each table: skip if `parse_table` returned nothing; assert fewer
than three `a` tags; on exactly two links, `additional_res = res`
aliases the same dict, so setting `additional_res['href']` to the
second link also rewrites `res['href']` — both yielded records carry
the second link.  Callers consume the generator with `list(...)`, so a
failed assertion yields no records at all. -/
def parse_iqdb_result_page : List Table → Except String (List MatchRecord)
  | [] => Except.ok []
  | t :: ts =>
    match t.parsed with
    | none => parse_iqdb_result_page ts
    | some res =>
      if 3 ≤ t.links.length then Except.error malformedMsg
      else
        let here :=
          if t.links.length = 2 then
            let res2 : MatchRecord := { res with href := (t.links.get? 1).getD none }
            [res2, res2]
          else [res]
        match parse_iqdb_result_page ts with
        | Except.error e => Except.error e
        | Except.ok rest => Except.ok (here ++ rest)

/-- Identity of a posted entity: `models.ImageModel` (keyed by the
content fingerprint) or a thumbnail derived from it at a size.
Modelled from the spec: the fingerprint is a deterministic content
hash, embedded as the content string itself. -/
inductive Entity where
  | image (fp : String)
  | thumb (fp : String) (size : Nat × Nat)
  deriving DecidableEq, Repr

/-- One stored `models.ImageMatch` row: posted entity, search place
(verbose name) and the parsed record (which carries the source link).
Modelled from the spec: a Match is uniquely identified by
(image fingerprint, provider, source link). -/
structure ImageMatchRow where
  posted : Entity
  place : String
  record : MatchRecord
  deriving DecidableEq, Repr

/-- The persistent database: stored `ImageMatch` rows and
`MatchTagRelationship` rows ((match-result link, tag) pairs), each in
insertion order.  Modelled from the spec (§4.4): the store only grows,
with get-or-create semantics. -/
structure Store where
  imageMatches : List ImageMatchRow
  mtr : List (String × Tag)
  deriving DecidableEq, Repr

/-- `__main__.py:26`. -/
def DEFAULT_SIZE : Nat × Nat := (150, 150)

/-- `__main__.py:27`. -/
def DEFAULT_PLACE : String := "iqdb"

/-- The provider table `iqdb_url_dict` (`__main__.py:32-44`), reduced
to name → endpoint URL. -/
def iqdb_url_dict : List (String × String) :=
  [("iqdb", "http://iqdb.org"),
   ("danbooru", "http://danbooru.iqdb.org"),
   ("e621", "http://iqdb.harry.lu"),
   ("anime_pictures", "https://anime-pictures.iqdb.org"),
   ("e_shuushuu", "https://e-shuushuu.iqdb.org"),
   ("gelbooru", "https://gelbooru.iqdb.org"),
   ("konachan", "https://konachan.iqdb.org"),
   ("sankaku", "https://sankaku.iqdb.org"),
   ("theanimegallery", "https://theanimegallery.iqdb.org"),
   ("yandere", "https://yandere.iqdb.org"),
   ("zerochan", "https://zerochan.iqdb.org")]

/-- Dictionary lookup `iqdb_url_dict[place]`; `none` models `KeyError`. -/
def lookupPlace (place : String) : Option String :=
  (iqdb_url_dict.find? (fun kv => decide (kv.1 = place))).map (fun kv => kv.2)

/-- Strip a literal character-list prefix, `none` when it does not match. -/
def stripChars : List Char → List Char → Option (List Char)
  | [], cs => some cs
  | _ :: _, [] => none
  | p :: ps, c :: cs => if p = c then stripChars ps cs else none

/-- Characters up to the first `/`. -/
def hostChars : List Char → List Char
  | [] => []
  | c :: cs => if c = '/' then [] else c :: hostChars cs

/-- `urlparse(url).netloc` for the http/https URLs this program
handles: the host part between the scheme and the first slash. -/
def netloc (url : String) : String :=
  match stripChars "https://".data url.data with
  | some rest => String.mk (hostChars rest)
  | none =>
    match stripChars "http://".data url.data with
    | some rest => String.mk (hostChars rest)
    | none => ""

/-- The host denylist `filtered_hosts` (`__main__.py:155`). -/
def filtered_hosts : List String := ["anime-pictures.net", "www.theanimegallery.com"]

/-- The tags already stored for a match result:
`models.MatchTagRelationship.select().where(match == match_result)`
(`__main__.py:156-158`), in insertion order.  Modelled from the spec:
`MatchResult` rows are deduplicated by URL, so the link string is the key. -/
def storedTags (st : Store) (link : String) : List Tag :=
  (st.mtr.filter (fun p => decide (p.1 = link))).map (fun p => p.2)

/-- `models.MatchTagRelationship.get_or_create(match=…, tag=…)`
(modelled from the spec §4.4: created once per (match, tag) pair). -/
def addRel (st : Store) (link : String) (tg : Tag) : Store :=
  if (link, tg) ∈ st.mtr then st
  else { st with mtr := st.mtr ++ [(link, tg)] }

/-- The `for tag in new_tags` loop of `get_tags_from_match_result`
(`__main__.py:173-177`): for each extracted (namespace, name) pair,
get-or-create the `Tag` row and the relationship row, and append the
tag model to `new_tag_models` (unconditionally, so duplicates in
`new_tags` repeat in the returned list). -/
def storeTags (link : String) : List (String × String) → Store → Store × List Tag
  | [], st => (st, [])
  | (ns, nm) :: rest, st =>
    let tg : Tag := ⟨ns, nm⟩
    let st1 := addRel st link tg
    let out := storeTags link rest st1
    (out.1, tg :: out.2)

/-- Outcome of one tag-page fetch (`browser.open` + parser at
`__main__.py:168-170`): the extracted (namespace, name) pairs, a
connection-type failure (`requests.exceptions.ConnectionError` or
`mechanicalsoup.LinkNotFoundError`, the types caught at line 182), or
any other exception, which propagates to the caller. -/
inductive FetchErr where
  | connection
  | other (msg : String)
  deriving DecidableEq, Repr

/-- Result of `get_tags_from_match_result`: the returned tag list, the
store afterwards, and how many network fetches were performed. -/
structure TagFetchOut where
  tags : List Tag
  db : Store
  fetchCount : Nat
  deriving DecidableEq, Repr

/-- Embedding of `get_tags_from_match_result` (`__main__.py:149-184`).
`fetch` is the network collaborator (open the match link and run the
site parser).  Stored tags are read first; a denylisted host returns
them (fetching nothing); otherwise, only when no tags are stored, the
link is fetched: a connection-type error is caught and logged (the
stored — empty — tag list is returned), any other exception
propagates, and extracted tags are persisted and returned. -/
def get_tags_from_match_result
    (fetch : String → Except FetchErr (List (String × String)))
    (link : String) (st : Store) : Except String TagFetchOut :=
  let tags := storedTags st link
  if netloc link ∈ filtered_hosts then Except.ok ⟨tags, st, 0⟩
  else if tags = [] then
    match fetch link with
    | Except.error FetchErr.connection => Except.ok ⟨tags, st, 1⟩
    | Except.error (FetchErr.other msg) => Except.error msg
    | Except.ok new_tags =>
      let out := storeTags link new_tags st
      Except.ok ⟨tags ++ out.2, out.1, 1⟩
  else Except.ok ⟨tags, st, 0⟩

/-- Embedding of `get_posted_image` (`__main__.py:106-138`).
`thumbGen` is the thumbnail generator (PIL resize inside
`models.ThumbnailRelationship.get_or_create_from_image`, modelled from
the spec: generates the derived artifact, raising `OSError` — the
`Except.error` case — on unreadable image data).  The default-size
thumbnail relationship is always created, writing the thumbnail bytes
to the given `thumb_path` temp file; with `resize` and an explicit
`size` a second, size-specific thumbnail is generated; the returned
entity is the resized thumbnail when resizing, else the image itself.
Returns (posted entity, bytes written at `thumb_path`). -/
def get_posted_image (thumbGen : String → Nat × Nat → Except String String)
    (content : String) (resize : Bool) (size : Option (Nat × Nat)) :
    Except String (Entity × String) :=
  match thumbGen content DEFAULT_SIZE with
  | Except.error e => Except.error e
  | Except.ok defThumb =>
    match resize, size with
    | true, some s =>
      match thumbGen content s with
      | Except.error e => Except.error e
      | Except.ok _ => Except.ok (Entity.thumb content s, defThumb)
    | true, none => Except.ok (Entity.thumb content DEFAULT_SIZE, defThumb)
    | false, _ => Except.ok (Entity.image content, defThumb)

/-- The ImageMatch row stored for one parsed record. -/
def mkRow (posted : Entity) (place : String) (r : MatchRecord) : ImageMatchRow :=
  ⟨posted, place, r⟩

/-- The cache lookup of `run_program_for_single_img`
(`__main__.py:288-291`): all stored matches of the posted entity whose
search place matches, in insertion order. -/
def lookupMatches (st : Store) (posted : Entity) (place : String) : List ImageMatchRow :=
  st.imageMatches.filter (fun r => decide (r.posted = posted) && decide (r.place = place))

/-- The stored row with the given Match identity, if any.  Modelled
from the spec §3: a Match is uniquely identified by
(image fingerprint, provider, source link), so the get-or-create key
is (posted entity, place, link) — not the full record. -/
def findMatchRow (st : Store) (posted : Entity) (place : String)
    (href : Option String) : Option ImageMatchRow :=
  st.imageMatches.find? (fun r =>
    decide (r.posted = posted) && decide (r.place = place) && decide (r.record.href = href))

/-- The persisting pass of `models.ImageMatch.get_or_create_from_page`
over the parsed records (modelled from the spec §4.4 and §3: each
record is persisted get-or-create under the (image fingerprint,
provider, source link) key — a row with the same key is reused as is —
and the stored row is returned for every record, in page order). -/
def storeRecords (posted : Entity) (place : String) :
    List MatchRecord → Store → Store × List ImageMatchRow
  | [], st => (st, [])
  | r :: rs, st =>
    match findMatchRow st posted place r.href with
    | some row =>
      let out := storeRecords posted place rs st
      (out.1, row :: out.2)
    | none =>
      let row := mkRow posted place r
      let st1 := { st with imageMatches := st.imageMatches ++ [row] }
      let out := storeRecords posted place rs st1
      (out.1, row :: out.2)

/-- The match filters of `run_program_for_single_img`
(`__main__.py:306-309`): the best-match whitelist, then the
minimum-similarity threshold (guarded by Python truthiness, so a
threshold of 0 — like `None` — applies no filter). -/
def filterMatches (match_filter : Option String) (minimum_similarity : Option Nat)
    (result : List ImageMatchRow) : List ImageMatchRow :=
  let r1 := if match_filter = some "best-match"
            then result.filter (fun x => decide (x.record.status = STATUS_BEST_MATCH))
            else result
  match minimum_similarity with
  | none => r1
  | some t => if t = 0 then r1 else r1.filter (fun x => decide (t ≤ x.record.similarity))

/-- Accumulated output of the per-match tag loop. -/
structure LoopOut where
  db : Store
  pairs : List (String × List Tag)
  errors : List String
  fetches : Nat
  deriving DecidableEq, Repr

/-- The per-match loop of `run_program_for_single_img`
(`__main__.py:313-338`): for each surviving match, resolve its match
result's tags; an exception escaping the block is caught, logged and
appended to `error_set`, and the loop continues with the next match. -/
def tagLoop (fetch : String → Except FetchErr (List (String × String))) :
    List ImageMatchRow → Store → LoopOut
  | [], st => ⟨st, [], [], 0⟩
  | item :: rest, st =>
    let link := item.record.href.getD ""
    match get_tags_from_match_result fetch link st with
    | Except.ok out =>
      let lo := tagLoop fetch rest out.db
      ⟨lo.db, (link, out.tags) :: lo.pairs, lo.errors, out.fetchCount + lo.fetches⟩
    | Except.error e =>
      let lo := tagLoop fetch rest st
      ⟨lo.db, lo.pairs, e :: lo.errors, 1 + lo.fetches⟩

/-- Output of the match-acquisition phase (cache lookup or upload),
with temp-file accounting: how many temp files the phase created and
how many it removed, and `raised` = the exception propagating out of
it, if any. -/
structure Phase1Out where
  store : Store
  result : List ImageMatchRow
  uploaded : Bool
  uploadedContent : Option String
  tempCreated : Nat
  tempRemoved : Nat
  raised : Option String
  deriving DecidableEq, Repr

/-- The match-acquisition phase of `run_program_for_single_img` on
non-Windows (`__main__.py:280-304`): two `NamedTemporaryFile(delete=False)`
files are created (the image copy and the thumbnail target) and —
since `delete=False` and no `os.remove` follows — never removed on any
path; the posted image is resolved (an `OSError` re-raises with a
` when processing` suffix); stored matches for (posted, place) are
collected; only when none exist is the file uploaded (the copy, or the
thumbnail temp when resizing) and the parsed records persisted. -/
def acquireMatches (thumbGen : String → Nat × Nat → Except String String)
    (page : List Table) (image content : String) (resize : Bool)
    (size : Option (Nat × Nat)) (place : String) (st : Store) : Phase1Out :=
  match get_posted_image thumbGen content resize size with
  | Except.error e =>
    ⟨st, [], false, none, 2, 0, some (e ++ " when processing " ++ image)⟩
  | Except.ok (posted, thumbContent) =>
    let result0 := lookupMatches st posted place
    if result0.isEmpty then
      match lookupPlace place with
      | none => ⟨st, [], false, none, 2, 0, some "KeyError"⟩
      | some _url =>
        match parse_iqdb_result_page page with
        | Except.error e => ⟨st, [], false, none, 2, 0, some e⟩
        | Except.ok recs =>
          let stored := storeRecords posted place recs st
          ⟨stored.1, stored.2, true,
           some (if resize then thumbContent else content), 2, 0, none⟩
    else ⟨st, result0, false, none, 2, 0, none⟩

/-- Embedding of `get_result_on_windows` (`__main__.py:198-237`): the
same match acquisition, except that the two temp files are explicitly
closed and `os.remove`d at the end of the function — so they are
removed on the success paths only; when `get_posted_image` raises (or
the page is malformed), the removal code is never reached. -/
def get_result_on_windows (thumbGen : String → Nat × Nat → Except String String)
    (page : List Table) (image content : String) (resize : Bool)
    (size : Option (Nat × Nat)) (place : String) (st : Store) : Phase1Out :=
  let p := acquireMatches thumbGen page image content resize size place st
  if p.raised.isSome then p else { p with tempRemoved := 2 }

/-- Result dictionary of `run_program_for_single_img` (plus the store
and accounting fields of the embedding): `error` → `errors`, `result`
→ `result`, `match result tag pairs` → `pairs`; `raised` is the
exception propagating out of the call, if any. -/
structure RunResult where
  store : Store
  result : List ImageMatchRow
  pairs : List (String × List Tag)
  errors : List String
  uploaded : Bool
  uploadedContent : Option String
  fetches : Nat
  tempCreated : Nat
  tempRemoved : Nat
  raised : Option String
  deriving DecidableEq, Repr

/-- Embedding of `run_program_for_single_img` (`__main__.py:240-340`).
Oracles: `thumbGen` the thumbnail generator, `fetch` the tag-page
fetcher, `page` the provider's results page (used only on upload);
`content` is the byte content of the file at path `image`.  Acquire
the matches (platform-dependent temp handling), apply the two pure
post-filters, then run the tag loop over the filtered list and return
the result dictionary. -/
def run_program_for_single_img (isWindows : Bool)
    (thumbGen : String → Nat × Nat → Except String String)
    (fetch : String → Except FetchErr (List (String × String)))
    (page : List Table) (image content : String) (resize : Bool)
    (size : Option (Nat × Nat)) (place : String)
    (match_filter : Option String) (minimum_similarity : Option Nat)
    (st : Store) : RunResult :=
  let p := if isWindows
           then get_result_on_windows thumbGen page image content resize size place st
           else acquireMatches thumbGen page image content resize size place st
  match p.raised with
  | some e => ⟨p.store, [], [], [], p.uploaded, p.uploadedContent, 0,
               p.tempCreated, p.tempRemoved, some e⟩
  | none =>
    let result := filterMatches match_filter minimum_similarity p.result
    let lo := tagLoop fetch result p.store
    ⟨lo.db, result, lo.pairs, lo.errors, p.uploaded, p.uploadedContent,
     lo.fetches, p.tempCreated, p.tempRemoved, none⟩

/-- The per-image error list of the result dictionary of one per-file
call in folder mode (what `result['error']` holds). -/
structure SingleOut where
  errors : List String
  deriving DecidableEq, Repr

/-- Outcome of the folder-mode batch loop: either a re-raised per-file
exception (with the files fully processed before it), or the
accumulated `error_set` and the processed files. -/
inductive BatchOutcome where
  | raised (file : String) (err : String) (processed : List String)
  | done (error_set : List (String × String)) (processed : List String)
  deriving DecidableEq, Repr

/-- Embedding of the folder-mode loop of `run` (`__main__.py:403-426`).
`runImg` models the `run_program_for_single_img` call for one file:
`Except.error` when it raises.  On a raise: with `abort_on_error` the
exception re-raises immediately (no later file is processed), else the
`(path, error)` pair is appended to `error_set` and the loop continues
(`result` was reset to `{}`, so no per-image errors are added for that
file); on success the per-image error list is appended as
`(path, error)` pairs. -/
def run_folder (runImg : String → Except String SingleOut) (abort_on_error : Bool) :
    List String → BatchOutcome
  | [] => BatchOutcome.done [] []
  | f :: fs =>
    match runImg f with
    | Except.error e =>
      if abort_on_error then BatchOutcome.raised f e []
      else
        match run_folder runImg abort_on_error fs with
        | BatchOutcome.raised g e2 ps => BatchOutcome.raised g e2 (f :: ps)
        | BatchOutcome.done es ps => BatchOutcome.done ((f, e) :: es) (f :: ps)
    | Except.ok r =>
      match run_folder runImg abort_on_error fs with
      | BatchOutcome.raised g e2 ps => BatchOutcome.raised g e2 (f :: ps)
      | BatchOutcome.done es ps =>
        BatchOutcome.done ((r.errors.map (fun x => (f, x))) ++ es) (f :: ps)

/-! ## Helper lemmas -/

theorem addRel_imageMatches (st : Store) (link : String) (tg : Tag) :
    (addRel st link tg).imageMatches = st.imageMatches := by
  unfold addRel
  split <;> rfl

theorem addRel_mem (st : Store) (link : String) (tg : Tag) :
    (link, tg) ∈ (addRel st link tg).mtr := by
  unfold addRel
  split
  · assumption
  · simp

theorem storeTags_imageMatches (link : String) (ts : List (String × String)) (st : Store) :
    (storeTags link ts st).1.imageMatches = st.imageMatches := by
  induction ts generalizing st with
  | nil => rfl
  | cons h t ih =>
    obtain ⟨ns, nm⟩ := h
    simp only [storeTags]
    rw [ih, addRel_imageMatches]

theorem storeTags_mtr_ext (link : String) (ts : List (String × String)) (st : Store) :
    ∃ ext, (storeTags link ts st).1.mtr = st.mtr ++ ext := by
  induction ts generalizing st with
  | nil => exact ⟨[], by simp [storeTags]⟩
  | cons h t ih =>
    obtain ⟨ns, nm⟩ := h
    simp only [storeTags]
    obtain ⟨ext, hext⟩ := ih (addRel st link ⟨ns, nm⟩)
    by_cases hmem : (link, (⟨ns, nm⟩ : Tag)) ∈ st.mtr
    · refine ⟨ext, ?_⟩
      rw [hext]
      simp [addRel, if_pos hmem]
    · refine ⟨(link, (⟨ns, nm⟩ : Tag)) :: ext, ?_⟩
      rw [hext]
      simp [addRel, if_neg hmem]

theorem mem_storedTags (st : Store) (link : String) (tg : Tag)
    (h : (link, tg) ∈ st.mtr) : tg ∈ storedTags st link := by
  unfold storedTags
  exact List.mem_map.mpr ⟨(link, tg), List.mem_filter.mpr ⟨h, by simp⟩, rfl⟩

theorem storeTags_storedTags_ne_nil (link : String) (ns nm : String)
    (ts : List (String × String)) (st : Store) :
    storedTags (storeTags link ((ns, nm) :: ts) st).1 link ≠ [] := by
  simp only [storeTags]
  obtain ⟨ext, hext⟩ := storeTags_mtr_ext link ts (addRel st link ⟨ns, nm⟩)
  have hmem : (link, (⟨ns, nm⟩ : Tag)) ∈ (storeTags link ts (addRel st link ⟨ns, nm⟩)).1.mtr := by
    rw [hext]
    exact List.mem_append.mpr (Or.inl (addRel_mem st link ⟨ns, nm⟩))
  have htag := mem_storedTags _ link ⟨ns, nm⟩ hmem
  intro hnil
  rw [hnil] at htag
  exact absurd htag (List.not_mem_nil _)

/-! Characterizations of `get_tags_from_match_result`, one per branch of
the source function. -/

theorem get_tags_denylisted (fetch : String → Except FetchErr (List (String × String)))
    (link : String) (st : Store) (h : netloc link ∈ filtered_hosts) :
    get_tags_from_match_result fetch link st = Except.ok ⟨storedTags st link, st, 0⟩ := by
  unfold get_tags_from_match_result
  rw [if_pos h]

theorem get_tags_cached (fetch : String → Except FetchErr (List (String × String)))
    (link : String) (st : Store) (h1 : netloc link ∉ filtered_hosts)
    (h2 : storedTags st link ≠ []) :
    get_tags_from_match_result fetch link st = Except.ok ⟨storedTags st link, st, 0⟩ := by
  unfold get_tags_from_match_result
  rw [if_neg h1, if_neg h2]

theorem get_tags_conn (fetch : String → Except FetchErr (List (String × String)))
    (link : String) (st : Store) (h1 : netloc link ∉ filtered_hosts)
    (h2 : storedTags st link = []) (h3 : fetch link = Except.error FetchErr.connection) :
    get_tags_from_match_result fetch link st = Except.ok ⟨storedTags st link, st, 1⟩ := by
  unfold get_tags_from_match_result
  rw [if_neg h1, if_pos h2, h3]

theorem get_tags_other (fetch : String → Except FetchErr (List (String × String)))
    (link : String) (st : Store) (msg : String) (h1 : netloc link ∉ filtered_hosts)
    (h2 : storedTags st link = []) (h3 : fetch link = Except.error (FetchErr.other msg)) :
    get_tags_from_match_result fetch link st = Except.error msg := by
  unfold get_tags_from_match_result
  rw [if_neg h1, if_pos h2, h3]

theorem get_tags_fetch_ok (fetch : String → Except FetchErr (List (String × String)))
    (link : String) (st : Store) (ts : List (String × String))
    (h1 : netloc link ∉ filtered_hosts) (h2 : storedTags st link = [])
    (h3 : fetch link = Except.ok ts) :
    get_tags_from_match_result fetch link st =
      Except.ok ⟨storedTags st link ++ (storeTags link ts st).2, (storeTags link ts st).1, 1⟩ := by
  unfold get_tags_from_match_result
  rw [if_neg h1, if_pos h2, h3]

theorem get_tags_imageMatches (fetch : String → Except FetchErr (List (String × String)))
    (link : String) (st : Store) (out : TagFetchOut)
    (h : get_tags_from_match_result fetch link st = Except.ok out) :
    out.db.imageMatches = st.imageMatches := by
  by_cases h1 : netloc link ∈ filtered_hosts
  · rw [get_tags_denylisted fetch link st h1] at h
    cases h
    rfl
  · by_cases h2 : storedTags st link = []
    · cases h3 : fetch link with
      | ok ts =>
        rw [get_tags_fetch_ok fetch link st ts h1 h2 h3] at h
        cases h
        exact storeTags_imageMatches link ts st
      | error fe =>
        cases fe with
        | connection =>
          rw [get_tags_conn fetch link st h1 h2 h3] at h
          cases h
          rfl
        | other msg =>
          rw [get_tags_other fetch link st msg h1 h2 h3] at h
          cases h
    · rw [get_tags_cached fetch link st h1 h2] at h
      cases h
      rfl

theorem tagLoop_imageMatches (fetch : String → Except FetchErr (List (String × String)))
    (ms : List ImageMatchRow) (st : Store) :
    (tagLoop fetch ms st).db.imageMatches = st.imageMatches := by
  induction ms generalizing st with
  | nil => rfl
  | cons item rest ih =>
    simp only [tagLoop]
    cases h : get_tags_from_match_result fetch (item.record.href.getD "") st with
    | ok out =>
      simpa using (ih out.db).trans (get_tags_imageMatches fetch _ st out h)
    | error e =>
      simpa using ih st

/-! ## Claim C2 -/

/-- The first-link record `parse_table` produced for the C2 table. -/
def c2rec : MatchRecord := ⟨some "http://h1.example/a", none, 90, STATUS_BEST_MATCH⟩

/-- A result table with exactly two outbound links, with distinct targets. -/
def c2table : Table :=
  ⟨some c2rec, [some "http://h1.example/a", some "http://h2.example/b"]⟩

/-- C2: on a result row with exactly two outbound links the parser does
yield exactly two records sharing similarity and status, but — because
`additional_res = res` aliases the dict before `additional_res['href']`
is overwritten — both records carry the second link: their source links
are equal, not differing, and the first link is lost.  The code
evaluated at the failing input. -/
theorem C2_two_link_row_aliased :
    parse_iqdb_result_page [c2table] =
      Except.ok [⟨some "http://h2.example/b", none, 90, STATUS_BEST_MATCH⟩,
                 ⟨some "http://h2.example/b", none, 90, STATUS_BEST_MATCH⟩] ∧
    c2rec.href = some "http://h1.example/a" := by
  constructor
  · rfl
  · rfl

/-! ## Claim C7 -/

theorem parse_error_of_bad_table (ts : List Table)
    (h : ∃ t ∈ ts, t.parsed.isSome ∧ 3 ≤ t.links.length) :
    parse_iqdb_result_page ts = Except.error malformedMsg := by
  induction ts with
  | nil => simp at h
  | cons t rest ih =>
    obtain ⟨u, hu, hsome, hlen⟩ := h
    rcases List.mem_cons.mp hu with heq | htail
    · subst heq
      obtain ⟨r, hr⟩ := Option.isSome_iff_exists.mp hsome
      simp only [parse_iqdb_result_page, hr]
      rw [if_pos hlen]
    · cases hp : t.parsed with
      | none => simpa only [parse_iqdb_result_page, hp] using ih ⟨u, htail, hsome, hlen⟩
      | some r =>
        simp only [parse_iqdb_result_page, hp]
        by_cases h3 : 3 ≤ t.links.length
        · rw [if_pos h3]
        · rw [if_neg h3, ih ⟨u, htail, hsome, hlen⟩]

/-- C7: a results page containing a result row (a table whose
`parse_table` succeeded) with three or more outbound links makes the
parser fail with the contract-violation assertion message, and the
page yields no records at all — the row is neither skipped nor does it
contribute records. -/
theorem C7_malformed_row_raises (ts : List Table) (t : Table)
    (hmem : t ∈ ts) (hparsed : t.parsed.isSome) (hlinks : 3 ≤ t.links.length) :
    parse_iqdb_result_page ts = Except.error malformedMsg :=
  parse_error_of_bad_table ts ⟨t, hmem, hparsed, hlinks⟩

/-- A parseable result table with three outbound links. -/
def c7table : Table :=
  ⟨some c2rec, [some "http://a.example/1", some "http://a.example/2", none]⟩

/-- Witness for C7 at a concrete page: a parseable table with three links. -/
theorem C7_malformed_row_raises_witness :
    parse_iqdb_result_page [c7table] = Except.error malformedMsg :=
  C7_malformed_row_raises [c7table] c7table (by decide) (by decide) (by decide)

/-! ## Claim C4 -/

/-- C4 (amended): for every match result whose link's host is in the
denylist, tag resolution performs no network fetch and the store is
unchanged, but it returns the previously stored tags for that match
result — the empty sequence only when no `MatchTagRelationship` rows
exist. -/
theorem C4_denylisted_no_fetch (fetch : String → Except FetchErr (List (String × String)))
    (link : String) (st : Store) (h : netloc link ∈ filtered_hosts) :
    get_tags_from_match_result fetch link st = Except.ok ⟨storedTags st link, st, 0⟩ :=
  get_tags_denylisted fetch link st h

/-- A fetch collaborator that extracts no tags. -/
def fetchEmpty : String → Except FetchErr (List (String × String)) := fun _ => Except.ok []

/-- A store holding one tag relationship for a denylisted link. -/
def c4store : Store := ⟨[], [("https://anime-pictures.net/posts/1", ⟨"", "tagA"⟩)]⟩

/-- Witness for C4 at a concrete denylisted link. -/
theorem C4_denylisted_no_fetch_witness :
    get_tags_from_match_result fetchEmpty "https://anime-pictures.net/posts/1" c4store =
      Except.ok ⟨storedTags c4store "https://anime-pictures.net/posts/1", c4store, 0⟩ :=
  C4_denylisted_no_fetch fetchEmpty "https://anime-pictures.net/posts/1" c4store (by decide)

/-- C4 counterexample: a denylisted match result that already has a
stored tag relationship: tag resolution returns that non-empty tag
list, not the empty sequence the claim states. -/
theorem C4_counterexample :
    netloc "https://anime-pictures.net/posts/1" ∈ filtered_hosts ∧
    get_tags_from_match_result fetchEmpty "https://anime-pictures.net/posts/1" c4store =
      Except.ok ⟨[⟨"", "tagA"⟩], c4store, 0⟩ ∧
    ([⟨"", "tagA"⟩] : List Tag) ≠ [] := by
  refine ⟨by decide, by rfl, by decide⟩

/-! ## Claim C3 -/

/-- C3 (amended): tag resolution performs at most one tag-persisting
network fetch: whenever any `MatchTagRelationship` rows exist for the
match result, no fetch occurs and the call returns exactly the stored
tags; and when the first call's fetch extracts at least one tag, the
relationships are persisted, so the second call performs no fetch and
returns exactly the stored tags.  (A fetch that extracts no tags
persists nothing, and a later call fetches again.) -/
theorem C3_second_call_cached (fetch : String → Except FetchErr (List (String × String)))
    (link : String) (st : Store) :
    (storedTags st link ≠ [] →
      get_tags_from_match_result fetch link st = Except.ok ⟨storedTags st link, st, 0⟩) ∧
    (netloc link ∉ filtered_hosts → storedTags st link = [] →
      ∀ ns nm ts, fetch link = Except.ok ((ns, nm) :: ts) →
        ∃ out1, get_tags_from_match_result fetch link st = Except.ok out1 ∧
          out1.fetchCount = 1 ∧
          storedTags out1.db link ≠ [] ∧
          get_tags_from_match_result fetch link out1.db =
            Except.ok ⟨storedTags out1.db link, out1.db, 0⟩) := by
  constructor
  · intro h2
    by_cases h1 : netloc link ∈ filtered_hosts
    · exact get_tags_denylisted fetch link st h1
    · exact get_tags_cached fetch link st h1 h2
  · intro h1 h2 ns nm ts h3
    refine ⟨⟨storedTags st link ++ (storeTags link ((ns, nm) :: ts) st).2,
             (storeTags link ((ns, nm) :: ts) st).1, 1⟩,
            get_tags_fetch_ok fetch link st ((ns, nm) :: ts) h1 h2 h3, rfl, ?_, ?_⟩
    · exact storeTags_storedTags_ne_nil link ns nm ts st
    · by_cases hden : netloc link ∈ filtered_hosts
      · exact get_tags_denylisted fetch link _ hden
      · exact get_tags_cached fetch link _ hden (storeTags_storedTags_ne_nil link ns nm ts st)

/-- A fetch collaborator extracting one (namespace, name) pair. -/
def fetchOne : String → Except FetchErr (List (String × String)) :=
  fun _ => Except.ok [("artist", "someone")]

/-- Witness for C3 at a concrete link, store and fetch collaborator. -/
theorem C3_second_call_cached_witness :
    ∃ out1, get_tags_from_match_result fetchOne "http://x.example/p" ⟨[], []⟩ =
        Except.ok out1 ∧
      out1.fetchCount = 1 ∧
      storedTags out1.db "http://x.example/p" ≠ [] ∧
      get_tags_from_match_result fetchOne "http://x.example/p" out1.db =
        Except.ok ⟨storedTags out1.db "http://x.example/p", out1.db, 0⟩ :=
  (C3_second_call_cached fetchOne "http://x.example/p" ⟨[], []⟩).2
    (by decide) (by rfl) "artist" "someone" [] (by rfl)

/-- Total number of network fetches across two consecutive calls of
tag resolution for the same match result (the second call running on
the store the first one returned). -/
def twoCallFetches (fetch : String → Except FetchErr (List (String × String)))
    (link : String) (st : Store) : Nat :=
  match get_tags_from_match_result fetch link st with
  | Except.error _ => 1
  | Except.ok o1 =>
    match get_tags_from_match_result fetch link o1.db with
    | Except.error _ => o1.fetchCount + 1
    | Except.ok o2 => o1.fetchCount + o2.fetchCount

/-- C3 counterexample: when the fetch extracts no tags, nothing is
persisted, so calling tag resolution twice fetches twice — more than
the "at most once" of the claim. -/
theorem C3_counterexample :
    get_tags_from_match_result fetchEmpty "http://x.example/p" ⟨[], []⟩ =
      Except.ok ⟨[], ⟨[], []⟩, 1⟩ ∧
    twoCallFetches fetchEmpty "http://x.example/p" ⟨[], []⟩ = 2 ∧
    ¬ twoCallFetches fetchEmpty "http://x.example/p" ⟨[], []⟩ ≤ 1 := by
  refine ⟨by rfl, by rfl, by decide⟩

/-! ## Claim C5 -/

theorem filter_comp {α : Type} (p q : α → Bool) (l : List α) :
    (l.filter p).filter q = l.filter (fun a => p a && q a) := by
  induction l with
  | nil => rfl
  | cons a t ih =>
    cases hp : p a <;> cases hq : q a <;> simp [List.filter_cons, hp, hq, ih]

/-- C5: the best-match-only filter yields exactly the sublist with
best-match status; the minimum-similarity filter with threshold `t`
yields exactly the sublist with `similarity ≥ t` (for `t = 0` the
Python truthiness guard skips the filter, and the whole list is
exactly that sublist); applying both yields the intersection; and the
filter settings never change the persisted `ImageMatch` rows of the
store a run leaves behind. -/
theorem C5_filters_exact :
    (∀ l : List ImageMatchRow,
      filterMatches (some "best-match") none l =
        l.filter (fun x => decide (x.record.status = STATUS_BEST_MATCH))) ∧
    (∀ (t : Nat) (l : List ImageMatchRow),
      filterMatches none (some t) l =
        l.filter (fun x => decide (t ≤ x.record.similarity))) ∧
    (∀ (t : Nat) (l : List ImageMatchRow),
      filterMatches (some "best-match") (some t) l =
        l.filter (fun x =>
          decide (x.record.status = STATUS_BEST_MATCH) && decide (t ≤ x.record.similarity))) ∧
    (∀ (isW : Bool) (thumbGen : String → Nat × Nat → Except String String)
       (fetch : String → Except FetchErr (List (String × String)))
       (page : List Table) (image content : String) (resize : Bool)
       (size : Option (Nat × Nat)) (place : String)
       (mf1 mf2 : Option String) (ms1 ms2 : Option Nat) (st : Store),
      (run_program_for_single_img isW thumbGen fetch page image content resize size place
        mf1 ms1 st).store.imageMatches =
      (run_program_for_single_img isW thumbGen fetch page image content resize size place
        mf2 ms2 st).store.imageMatches) := by
  refine ⟨fun l => rfl, ?_, ?_, ?_⟩
  · intro t l
    by_cases ht : t = 0
    · subst ht
      simp only [filterMatches]
      rw [if_neg (by simp : ¬ (none : Option String) = some "best-match")]
      rw [if_pos trivial]
      exact (List.filter_eq_self.mpr (by intro a _; simp)).symm
    · simp only [filterMatches]
      rw [if_neg (by simp : ¬ (none : Option String) = some "best-match")]
      rw [if_neg ht]
  · intro t l
    by_cases ht : t = 0
    · subst ht
      simp only [filterMatches, if_true]
      refine List.filter_congr ?_
      intro a _
      simp
    · simp only [filterMatches, if_true]
      rw [if_neg ht]
      exact filter_comp _ _ l
  · intro isW thumbGen fetch page image content resize size place mf1 mf2 ms1 ms2 st
    unfold run_program_for_single_img
    cases hr : (if isW then get_result_on_windows thumbGen page image content resize size place st
                else acquireMatches thumbGen page image content resize size place st).raised with
    | some e => simp [hr]
    | none => simp [hr, tagLoop_imageMatches]

/-! ## Claim C6 -/

/-- C6 (amended): in the per-match tag loop, a tag-fetch
connection-type failure is caught inside `get_tags_from_match_result`
and only logged: the match still contributes its (empty) stored tag
list and the image's error list is unchanged; any other exception of
the per-match block is caught, recorded in the error list, and the
loop continues with the remaining matches; and whenever match
acquisition did not raise, the per-image run returns its result
dictionary rather than raising. -/
theorem C6_tag_failure_handling (fetch : String → Except FetchErr (List (String × String)))
    (item : ImageMatchRow) (rest : List ImageMatchRow) (st : Store)
    (hden : netloc (item.record.href.getD "") ∉ filtered_hosts)
    (hstored : storedTags st (item.record.href.getD "") = []) :
    (fetch (item.record.href.getD "") = Except.error FetchErr.connection →
      tagLoop fetch (item :: rest) st =
        ⟨(tagLoop fetch rest st).db,
         (item.record.href.getD "", []) :: (tagLoop fetch rest st).pairs,
         (tagLoop fetch rest st).errors,
         1 + (tagLoop fetch rest st).fetches⟩) ∧
    (∀ msg, fetch (item.record.href.getD "") = Except.error (FetchErr.other msg) →
      tagLoop fetch (item :: rest) st =
        ⟨(tagLoop fetch rest st).db,
         (tagLoop fetch rest st).pairs,
         msg :: (tagLoop fetch rest st).errors,
         1 + (tagLoop fetch rest st).fetches⟩) ∧
    (∀ (thumbGen : String → Nat × Nat → Except String String)
       (page : List Table) (image content : String) (resize : Bool)
       (size : Option (Nat × Nat)) (place : String)
       (mf : Option String) (ms : Option Nat) (st' : Store),
      (acquireMatches thumbGen page image content resize size place st').raised = none →
      (run_program_for_single_img false thumbGen fetch page image content resize size place
        mf ms st').raised = none) := by
  refine ⟨?_, ?_, ?_⟩
  · intro hconn
    simp only [tagLoop, get_tags_conn fetch _ st hden hstored hconn, hstored]
  · intro msg hoth
    simp only [tagLoop, get_tags_other fetch _ st msg hden hstored hoth]
  · intro thumbGen page image content resize size place mf ms st' hacq
    unfold run_program_for_single_img
    simp [hacq]

/-- A fetch collaborator that always fails with a connection error. -/
def fetchConn : String → Except FetchErr (List (String × String)) :=
  fun _ => Except.error FetchErr.connection

/-- A fetch collaborator whose failure is not a connection-type error. -/
def fetchBoom : String → Except FetchErr (List (String × String)) :=
  fun _ => Except.error (FetchErr.other "boom")

/-- A stored match row whose link points at a non-denylisted host. -/
def c6row : ImageMatchRow :=
  ⟨Entity.image "IMG", "iqdb", ⟨some "http://x.example/p", none, 90, STATUS_BEST_MATCH⟩⟩

/-- A thumbnail generator that always succeeds. -/
def thumbGenOk : String → Nat × Nat → Except String String :=
  fun c s => Except.ok ("thumb:" ++ c ++ ":" ++ toString s.1 ++ "x" ++ toString s.2)

/-- Witness for C6 at concrete inputs for all three parts. -/
theorem C6_tag_failure_handling_witness :
    tagLoop fetchConn [c6row] ⟨[], []⟩ =
      ⟨⟨[], []⟩, [("http://x.example/p", [])], [], 1 + 0⟩ ∧
    tagLoop fetchBoom [c6row] ⟨[], []⟩ =
      ⟨⟨[], []⟩, [], ["boom"], 1 + 0⟩ ∧
    (run_program_for_single_img false thumbGenOk fetchConn [] "i.jpg" "IMG" false none "iqdb"
      none none ⟨[c6row], []⟩).raised = none :=
  ⟨(C6_tag_failure_handling fetchConn c6row [] ⟨[], []⟩ (by decide) (by rfl)).1 (by rfl),
   (C6_tag_failure_handling fetchBoom c6row [] ⟨[], []⟩ (by decide) (by rfl)).2.1 "boom" (by rfl),
   (C6_tag_failure_handling fetchConn c6row [] ⟨[], []⟩ (by decide) (by rfl)).2.2
     thumbGenOk [] "i.jpg" "IMG" false none "iqdb" none none ⟨[c6row], []⟩ (by rfl)⟩

/-- C6 counterexample: a per-image run whose only match suffers a
tag-fetch connection failure (the fetch is attempted: one fetch
happened) still returns an empty error list — the failure is logged
inside tag resolution, not recorded in the returned error list as the
claim states. -/
theorem C6_counterexample :
    (run_program_for_single_img false thumbGenOk fetchConn [] "i.jpg" "IMG" false none "iqdb"
      none none ⟨[c6row], []⟩).errors = [] ∧
    (run_program_for_single_img false thumbGenOk fetchConn [] "i.jpg" "IMG" false none "iqdb"
      none none ⟨[c6row], []⟩).fetches = 1 ∧
    (run_program_for_single_img false thumbGenOk fetchConn [] "i.jpg" "IMG" false none "iqdb"
      none none ⟨[c6row], []⟩).raised = none := by
  refine ⟨by rfl, by rfl, by rfl⟩

/-! ## Store / acquisition lemmas -/

theorem find_append_singleton_none {α : Type} (p : α → Bool) (l : List α) (a : α)
    (hl : l.find? p = none) (ha : p a = false) : (l ++ [a]).find? p = none := by
  induction l with
  | nil =>
    rw [List.nil_append, List.find?_cons_of_neg _ (by simp [ha])]
    rfl
  | cons x xs ih =>
    by_cases hx : p x = true
    · rw [List.find?_cons_of_pos _ hx] at hl
      cases hl
    · rw [List.find?_cons_of_neg _ hx] at hl
      rw [List.cons_append, List.find?_cons_of_neg _ hx]
      exact ih hl

theorem findMatchRow_none_of_lookup_nil (st : Store) (posted : Entity) (place : String)
    (hlk : lookupMatches st posted place = []) (href : Option String) :
    findMatchRow st posted place href = none := by
  unfold findMatchRow
  cases hf : st.imageMatches.find? (fun r =>
      decide (r.posted = posted) && decide (r.place = place) &&
        decide (r.record.href = href)) with
  | none => rfl
  | some row =>
    have hmem := List.mem_of_find?_eq_some hf
    have hpred := List.find?_some hf
    have hm : row ∈ lookupMatches st posted place := by
      unfold lookupMatches
      refine List.mem_filter.mpr ⟨hmem, ?_⟩
      simp only [Bool.and_eq_true, decide_eq_true_eq] at hpred
      simp [hpred.1.1, hpred.1.2]
    rw [hlk] at hm
    exact absurd hm (List.not_mem_nil _)

theorem storeRecords_fresh (posted : Entity) (place : String)
    (rs : List MatchRecord) (st : Store)
    (hnd : (rs.map (fun r => r.href)).Nodup)
    (hfresh : ∀ r ∈ rs, findMatchRow st posted place r.href = none) :
    (storeRecords posted place rs st).1.imageMatches =
      st.imageMatches ++ rs.map (mkRow posted place) ∧
    (storeRecords posted place rs st).2 = rs.map (mkRow posted place) := by
  induction rs generalizing st with
  | nil => exact ⟨by simp [storeRecords], rfl⟩
  | cons r t ih =>
    rw [List.map_cons] at hnd
    obtain ⟨hrht, hndt⟩ := List.nodup_cons.mp hnd
    have hr0 : findMatchRow st posted place r.href = none := hfresh r (List.mem_cons_self _ _)
    have hfresh' : ∀ r' ∈ t,
        findMatchRow { st with imageMatches := st.imageMatches ++ [mkRow posted place r] }
          posted place r'.href = none := by
      intro r' hr'
      have hnone := hfresh r' (List.mem_cons_of_mem _ hr')
      unfold findMatchRow at hnone ⊢
      have hne : ¬ r.href = r'.href :=
        fun he => hrht (he ▸ List.mem_map.mpr ⟨r', hr', rfl⟩)
      exact find_append_singleton_none _ _ _ hnone (by simp [mkRow, hne])
    obtain ⟨h1, h2⟩ := ih { st with imageMatches := st.imageMatches ++ [mkRow posted place r] }
      hndt hfresh'
    simp only [storeRecords, hr0]
    constructor
    · rw [h1]
      simp
    · rw [h2]
      simp

theorem filter_map_mkRow (posted : Entity) (place : String) (rs : List MatchRecord) :
    (rs.map (mkRow posted place)).filter
      (fun r => decide (r.posted = posted) && decide (r.place = place)) =
      rs.map (mkRow posted place) := by
  refine List.filter_eq_self.mpr ?_
  intro a ha
  obtain ⟨r, _, rfl⟩ := List.mem_map.mp ha
  simp [mkRow]

theorem acquire_upload (thumbGen : String → Nat × Nat → Except String String)
    (page : List Table) (image content : String) (resize : Bool)
    (size : Option (Nat × Nat)) (place url : String) (st : Store)
    (posted : Entity) (tc : String) (recs : List MatchRecord)
    (hgp : get_posted_image thumbGen content resize size = Except.ok (posted, tc))
    (hlk : lookupMatches st posted place = [])
    (hpl : lookupPlace place = some url)
    (hp : parse_iqdb_result_page page = Except.ok recs) :
    acquireMatches thumbGen page image content resize size place st =
      ⟨(storeRecords posted place recs st).1, (storeRecords posted place recs st).2, true,
       some (if resize then tc else content), 2, 0, none⟩ := by
  unfold acquireMatches
  simp [hgp, hlk, hpl, hp]

theorem acquire_hit (thumbGen : String → Nat × Nat → Except String String)
    (page : List Table) (image content : String) (resize : Bool)
    (size : Option (Nat × Nat)) (place : String) (st : Store)
    (posted : Entity) (tc : String) (rows : List ImageMatchRow)
    (hgp : get_posted_image thumbGen content resize size = Except.ok (posted, tc))
    (hlk : lookupMatches st posted place = rows) (hne : rows ≠ []) :
    acquireMatches thumbGen page image content resize size place st =
      ⟨st, rows, false, none, 2, 0, none⟩ := by
  have hie : rows.isEmpty = false := by
    cases rows with
    | nil => exact absurd rfl hne
    | cons a t => rfl
  unfold acquireMatches
  simp [hgp, hlk, hie]

theorem run_of_acquire (thumbGen : String → Nat × Nat → Except String String)
    (fetch : String → Except FetchErr (List (String × String)))
    (page : List Table) (image content : String) (resize : Bool)
    (size : Option (Nat × Nat)) (place : String)
    (mf : Option String) (ms : Option Nat) (st : Store) (A : Phase1Out)
    (hacq : acquireMatches thumbGen page image content resize size place st = A)
    (hra : A.raised = none) :
    run_program_for_single_img false thumbGen fetch page image content resize size place
      mf ms st =
      ⟨(tagLoop fetch (filterMatches mf ms A.result) A.store).db,
       filterMatches mf ms A.result,
       (tagLoop fetch (filterMatches mf ms A.result) A.store).pairs,
       (tagLoop fetch (filterMatches mf ms A.result) A.store).errors,
       A.uploaded, A.uploadedContent,
       (tagLoop fetch (filterMatches mf ms A.result) A.store).fetches,
       A.tempCreated, A.tempRemoved, none⟩ := by
  unfold run_program_for_single_img
  simp [hacq, hra]

/-! ## Claim C8 -/

/-- C8: in folder mode, with abort-on-error unset every file of the
batch is processed and the accumulated error set contains the
(path, error) pair of every file whose processing raised; with the
flag set, the first failure re-raises immediately: the files processed
are exactly those before it and no later file is touched. -/
theorem C8_batch_error_collection :
    (∀ (runImg : String → Except String SingleOut) (files : List String),
      ∃ es, run_folder runImg false files = BatchOutcome.done es files ∧
        ∀ f e, f ∈ files → runImg f = Except.error e → (f, e) ∈ es) ∧
    (∀ (runImg : String → Except String SingleOut) (pre : List String) (f : String)
       (post : List String) (e : String),
      (∀ g ∈ pre, ∃ r, runImg g = Except.ok r) → runImg f = Except.error e →
      run_folder runImg true (pre ++ f :: post) = BatchOutcome.raised f e pre) := by
  constructor
  · intro runImg files
    induction files with
    | nil => exact ⟨[], rfl, by intro f e hf _; exact absurd hf (List.not_mem_nil f)⟩
    | cons f fs ih =>
      obtain ⟨es, hes, hmem⟩ := ih
      cases hri : runImg f with
      | error e0 =>
        refine ⟨(f, e0) :: es, ?_, ?_⟩
        · simp [run_folder, hri, hes]
        · intro f' e' hf' hre'
          rcases List.mem_cons.mp hf' with heq | htail
          · subst heq
            rw [hri] at hre'
            cases hre'
            exact List.mem_cons_self _ _
          · exact List.mem_cons_of_mem _ (hmem f' e' htail hre')
      | ok r =>
        refine ⟨r.errors.map (fun x => (f, x)) ++ es, ?_, ?_⟩
        · simp [run_folder, hri, hes]
        · intro f' e' hf' hre'
          rcases List.mem_cons.mp hf' with heq | htail
          · subst heq
            rw [hri] at hre'
            cases hre'
          · exact List.mem_append.mpr (Or.inr (hmem f' e' htail hre'))
  · intro runImg pre f post e hok hre
    induction pre with
    | nil => simp [run_folder, hre]
    | cons g pre' ih =>
      obtain ⟨r, hr⟩ := hok g (List.mem_cons_self _ _)
      have ih' := ih (fun g' hg' => hok g' (List.mem_cons_of_mem _ hg'))
      simp [run_folder, hr, ih']

/-- The per-file collaborator of the C8 witness: file `b` raises. -/
def c8ri : String → Except String SingleOut :=
  fun f => if f = "b" then Except.error "boom" else Except.ok ⟨[]⟩

/-- Witness for C8 at a concrete three-file batch whose middle file raises. -/
theorem C8_batch_error_collection_witness :
    (∃ es, run_folder c8ri false ["a", "b", "c"] = BatchOutcome.done es ["a", "b", "c"] ∧
      ∀ f e, f ∈ ["a", "b", "c"] → c8ri f = Except.error e → (f, e) ∈ es) ∧
    run_folder c8ri true (["a"] ++ "b" :: ["c"]) = BatchOutcome.raised "b" "boom" ["a"] :=
  ⟨C8_batch_error_collection.1 c8ri ["a", "b", "c"],
   C8_batch_error_collection.2 c8ri ["a"] "b" ["c"] "boom"
     (by
       intro g hg
       have : g = "a" := List.mem_singleton.mp hg
       subst this
       exact ⟨⟨[]⟩, rfl⟩)
     (by rfl)⟩

/-! ## Claim C9 -/

/-- A thumbnail generator that raises `OSError`, as PIL does on
unreadable image data. -/
def thumbGenFail : String → Nat × Nat → Except String String :=
  fun _ _ => Except.error "cannot identify image file"

/-- A parseable one-link result table. -/
def c1table : Table :=
  ⟨some ⟨some "http://h1.example/a", none, 92, STATUS_BEST_MATCH⟩,
   [some "http://h1.example/a"]⟩

/-- C9: the code evaluated on concrete runs.  On non-Windows the two
`NamedTemporaryFile(delete=False)` artifacts are never removed — the
run finishes (cache hit or upload, `raised = none`) with both temp
files still on disk (`tempRemoved = 0`), contradicting the claim that
they are removed on every path.  On Windows they are removed on the
success path, but not when `get_posted_image` raises. -/
theorem C9_temp_files_leak :
    (run_program_for_single_img false thumbGenOk fetchConn [] "i.jpg" "IMG" false none "iqdb"
      none none ⟨[c6row], []⟩).raised = none ∧
    (run_program_for_single_img false thumbGenOk fetchConn [] "i.jpg" "IMG" false none "iqdb"
      none none ⟨[c6row], []⟩).tempCreated = 2 ∧
    (run_program_for_single_img false thumbGenOk fetchConn [] "i.jpg" "IMG" false none "iqdb"
      none none ⟨[c6row], []⟩).tempRemoved = 0 ∧
    (run_program_for_single_img false thumbGenOk fetchConn [c1table] "i.jpg" "IMG2" false none
      "iqdb" none none ⟨[], []⟩).uploaded = true ∧
    (run_program_for_single_img false thumbGenOk fetchConn [c1table] "i.jpg" "IMG2" false none
      "iqdb" none none ⟨[], []⟩).tempRemoved = 0 ∧
    (run_program_for_single_img true thumbGenOk fetchConn [] "i.jpg" "IMG" false none "iqdb"
      none none ⟨[c6row], []⟩).tempRemoved = 2 ∧
    (run_program_for_single_img true thumbGenFail fetchConn [] "i.jpg" "IMG" false none "iqdb"
      none none ⟨[], []⟩).raised =
        some "cannot identify image file when processing i.jpg" ∧
    (run_program_for_single_img true thumbGenFail fetchConn [] "i.jpg" "IMG" false none "iqdb"
      none none ⟨[], []⟩).tempRemoved = 0 := by
  refine ⟨by rfl, by rfl, by rfl, by rfl, by rfl, by rfl, by rfl, by rfl⟩

/-! ## Claim C10 -/

/-- C10: on a cache miss with resize enabled and no explicit size, the
file submitted to the provider is the default 150×150 thumbnail
derived from the input (the bytes the default-size thumbnail
relationship wrote into the thumbnail temp file); with resize disabled
the submitted file is the copied original bytes. -/
theorem C10_resize_uploads_default_thumbnail
    (thumbGen : String → Nat × Nat → Except String String)
    (fetch : String → Except FetchErr (List (String × String)))
    (page : List Table) (image content : String) (place url : String)
    (mf : Option String) (ms : Option Nat) (st : Store) (tc : String)
    (recs : List MatchRecord)
    (htg : thumbGen content DEFAULT_SIZE = Except.ok tc)
    (hlkT : lookupMatches st (Entity.thumb content DEFAULT_SIZE) place = [])
    (hlkI : lookupMatches st (Entity.image content) place = [])
    (hpl : lookupPlace place = some url)
    (hp : parse_iqdb_result_page page = Except.ok recs) :
    (run_program_for_single_img false thumbGen fetch page image content true none place
      mf ms st).uploaded = true ∧
    (run_program_for_single_img false thumbGen fetch page image content true none place
      mf ms st).uploadedContent = some tc ∧
    (run_program_for_single_img false thumbGen fetch page image content false none place
      mf ms st).uploaded = true ∧
    (run_program_for_single_img false thumbGen fetch page image content false none place
      mf ms st).uploadedContent = some content := by
  have hgpT : get_posted_image thumbGen content true none =
      Except.ok (Entity.thumb content DEFAULT_SIZE, tc) := by
    unfold get_posted_image
    rw [htg]
  have hgpI : get_posted_image thumbGen content false none =
      Except.ok (Entity.image content, tc) := by
    unfold get_posted_image
    rw [htg]
  have hT := run_of_acquire thumbGen fetch page image content true none place mf ms st _
    (acquire_upload thumbGen page image content true none place url st
      (Entity.thumb content DEFAULT_SIZE) tc recs hgpT hlkT hpl hp) rfl
  have hI := run_of_acquire thumbGen fetch page image content false none place mf ms st _
    (acquire_upload thumbGen page image content false none place url st
      (Entity.image content) tc recs hgpI hlkI hpl hp) rfl
  rw [hT, hI]
  exact ⟨rfl, rfl, rfl, rfl⟩

/-- Witness for C10 at a concrete image, page and empty store. -/
theorem C10_resize_uploads_default_thumbnail_witness :
    (run_program_for_single_img false thumbGenOk fetchConn [c1table] "i.jpg" "IMG" true none
      "iqdb" none none ⟨[], []⟩).uploaded = true ∧
    (run_program_for_single_img false thumbGenOk fetchConn [c1table] "i.jpg" "IMG" true none
      "iqdb" none none ⟨[], []⟩).uploadedContent = some "thumb:IMG:150x150" ∧
    (run_program_for_single_img false thumbGenOk fetchConn [c1table] "i.jpg" "IMG" false none
      "iqdb" none none ⟨[], []⟩).uploaded = true ∧
    (run_program_for_single_img false thumbGenOk fetchConn [c1table] "i.jpg" "IMG" false none
      "iqdb" none none ⟨[], []⟩).uploadedContent = some "IMG" :=
  C10_resize_uploads_default_thumbnail thumbGenOk fetchConn [c1table] "i.jpg" "IMG" "iqdb"
    "http://iqdb.org" none none ⟨[], []⟩ "thumb:IMG:150x150"
    [⟨some "http://h1.example/a", none, 92, STATUS_BEST_MATCH⟩]
    (by rfl) (by rfl) (by rfl) (by rfl) (by rfl)

/-! ## Claim C1 -/

/-- C1 (amended): processing the same image twice against the same
provider creates no duplicate `ImageMatch` rows (the second run leaves
the stored rows unchanged), and — provided the first run's results
page yielded at least one record and the parsed records' source links
are pairwise distinct — the second run finds the stored matches by
fingerprint lookup, performs no network upload, and its result list
equals the first run's. -/
theorem C1_second_run_cached
    (thumbGen : String → Nat × Nat → Except String String)
    (fetch : String → Except FetchErr (List (String × String)))
    (page : List Table) (image content : String) (resize : Bool)
    (size : Option (Nat × Nat)) (place url : String)
    (mf : Option String) (ms : Option Nat)
    (st0 : Store) (posted : Entity) (tc : String) (recs : List MatchRecord)
    (hgp : get_posted_image thumbGen content resize size = Except.ok (posted, tc))
    (hlk : lookupMatches st0 posted place = [])
    (hpl : lookupPlace place = some url)
    (hp : parse_iqdb_result_page page = Except.ok recs)
    (hne : recs ≠ []) (hnd : (recs.map (fun r => r.href)).Nodup) :
    ∀ O1 O2 : RunResult,
      O1 = run_program_for_single_img false thumbGen fetch page image content resize size
        place mf ms st0 →
      O2 = run_program_for_single_img false thumbGen fetch page image content resize size
        place mf ms O1.store →
      O1.raised = none ∧ O1.uploaded = true ∧
      O1.store.imageMatches = st0.imageMatches ++ recs.map (mkRow posted place) ∧
      O2.raised = none ∧ O2.uploaded = false ∧
      O2.result = O1.result ∧
      O2.store.imageMatches = O1.store.imageMatches := by
  intro O1 O2 h1 h2
  have hacq1 := acquire_upload thumbGen page image content resize size place url st0
    posted tc recs hgp hlk hpl hp
  have hrun1 := run_of_acquire thumbGen fetch page image content resize size place
    mf ms st0 _ hacq1 rfl
  have hO1store : O1.store =
      (tagLoop fetch (filterMatches mf ms (storeRecords posted place recs st0).2)
        (storeRecords posted place recs st0).1).db := by
    rw [h1, hrun1]
  have hO1res : O1.result = filterMatches mf ms (storeRecords posted place recs st0).2 := by
    rw [h1, hrun1]
  have hO1raised : O1.raised = none := by rw [h1, hrun1]
  have hO1up : O1.uploaded = true := by rw [h1, hrun1]
  have hsr := storeRecords_fresh posted place recs st0 hnd
    (fun r _ => findMatchRow_none_of_lookup_nil st0 posted place hlk r.href)
  have hO1matches : O1.store.imageMatches =
      st0.imageMatches ++ recs.map (mkRow posted place) := by
    rw [hO1store, tagLoop_imageMatches, hsr.1]
  have hlk0 : st0.imageMatches.filter
      (fun r => decide (r.posted = posted) && decide (r.place = place)) = [] := hlk
  have hlk2 : lookupMatches O1.store posted place = recs.map (mkRow posted place) := by
    unfold lookupMatches
    rw [hO1matches, List.filter_append, hlk0, filter_map_mkRow]
    rfl
  have hne2 : recs.map (mkRow posted place) ≠ [] := by
    intro h
    cases recs with
    | nil => exact hne rfl
    | cons a t => cases h
  have hacq2 := acquire_hit thumbGen page image content resize size place O1.store
    posted tc (recs.map (mkRow posted place)) hgp hlk2 hne2
  have hrun2 := run_of_acquire thumbGen fetch page image content resize size place
    mf ms O1.store _ hacq2 rfl
  refine ⟨hO1raised, hO1up, hO1matches, ?_, ?_, ?_, ?_⟩
  · rw [h2, hrun2]
  · rw [h2, hrun2]
  · rw [h2, hrun2, hO1res, hsr.2]
  · rw [h2, hrun2]
    exact tagLoop_imageMatches fetch _ O1.store

/-- The first per-image run of the C1 witness (empty store, one-link
results page). -/
def c1run1 : RunResult :=
  run_program_for_single_img false thumbGenOk fetchConn [c1table] "i.jpg" "IMG" false none
    "iqdb" none none ⟨[], []⟩

/-- The second per-image run of the C1 witness, on the first run's store. -/
def c1run2 : RunResult :=
  run_program_for_single_img false thumbGenOk fetchConn [c1table] "i.jpg" "IMG" false none
    "iqdb" none none c1run1.store

/-- Witness for C1 at a concrete image, provider and results page. -/
theorem C1_second_run_cached_witness :
    c1run1.uploaded = true ∧ c1run2.uploaded = false ∧ c1run2.result = c1run1.result := by
  have h := C1_second_run_cached thumbGenOk fetchConn [c1table] "i.jpg" "IMG" false none
    "iqdb" "http://iqdb.org" none none ⟨[], []⟩ (Entity.image "IMG") "thumb:IMG:150x150"
    [⟨some "http://h1.example/a", none, 92, STATUS_BEST_MATCH⟩]
    (by rfl) (by rfl) (by rfl) (by rfl) (by decide) (by decide)
    c1run1 c1run2 (by rfl) (by rfl)
  exact ⟨h.2.1, h.2.2.2.2.1, h.2.2.2.2.2.1⟩

/-- A result table carrying one link to `http://dup.example/p`,
similarity 90. -/
def c1dupA : Table :=
  ⟨some ⟨some "http://dup.example/p", none, 90, 1⟩, [some "http://dup.example/p"]⟩

/-- A second result table carrying the same source link as `c1dupA`
but a different record (similarity 80, different status). -/
def c1dupB : Table :=
  ⟨some ⟨some "http://dup.example/p", none, 80, 2⟩, [some "http://dup.example/p"]⟩

/-- C1 counterexample: three genuine failure modes of the claim as
stated.  When the results page yields no records, nothing is cached
and the second run uploads again (the claim promises no upload on the
second run).  When the page has a two-link row, the first run's result
list holds the aliased record twice while the store keeps it once, so
the second run's result list (one element) differs from the first's
(two elements).  And when two distinct parsed records share a source
link (`c1dupA`/`c1dupB`: same link, similarities 90 and 80), the
get-or-create key (fingerprint, provider, link) merges them into one
stored row that the first run lists twice, so again the runs' result
lists differ — distinctness of the records is not enough, the links
must be distinct. -/
theorem C1_counterexample :
    (run_program_for_single_img false thumbGenOk fetchConn [] "i.jpg" "IMGE" false none "iqdb"
      none none ⟨[], []⟩).uploaded = true ∧
    (run_program_for_single_img false thumbGenOk fetchConn [] "i.jpg" "IMGE" false none "iqdb"
      none none
      (run_program_for_single_img false thumbGenOk fetchConn [] "i.jpg" "IMGE" false none
        "iqdb" none none ⟨[], []⟩).store).uploaded = true ∧
    (run_program_for_single_img false thumbGenOk fetchConn [c2table] "i.jpg" "IMGB" false none
      "iqdb" none none ⟨[], []⟩).result.length = 2 ∧
    (run_program_for_single_img false thumbGenOk fetchConn [c2table] "i.jpg" "IMGB" false none
      "iqdb" none none
      (run_program_for_single_img false thumbGenOk fetchConn [c2table] "i.jpg" "IMGB" false
        none "iqdb" none none ⟨[], []⟩).store).result.length = 1 ∧
    (run_program_for_single_img false thumbGenOk fetchConn [c2table] "i.jpg" "IMGB" false none
      "iqdb" none none
      (run_program_for_single_img false thumbGenOk fetchConn [c2table] "i.jpg" "IMGB" false
        none "iqdb" none none ⟨[], []⟩).store).result ≠
    (run_program_for_single_img false thumbGenOk fetchConn [c2table] "i.jpg" "IMGB" false none
      "iqdb" none none ⟨[], []⟩).result ∧
    [(⟨some "http://dup.example/p", none, 90, 1⟩ : MatchRecord),
     ⟨some "http://dup.example/p", none, 80, 2⟩].Nodup ∧
    (run_program_for_single_img false thumbGenOk fetchConn [c1dupA, c1dupB] "i.jpg" "IMGD"
      false none "iqdb" none none ⟨[], []⟩).result.length = 2 ∧
    (run_program_for_single_img false thumbGenOk fetchConn [c1dupA, c1dupB] "i.jpg" "IMGD"
      false none "iqdb" none none
      (run_program_for_single_img false thumbGenOk fetchConn [c1dupA, c1dupB] "i.jpg" "IMGD"
        false none "iqdb" none none ⟨[], []⟩).store).result.length = 1 ∧
    (run_program_for_single_img false thumbGenOk fetchConn [c1dupA, c1dupB] "i.jpg" "IMGD"
      false none "iqdb" none none
      (run_program_for_single_img false thumbGenOk fetchConn [c1dupA, c1dupB] "i.jpg" "IMGD"
        false none "iqdb" none none ⟨[], []⟩).store).result ≠
    (run_program_for_single_img false thumbGenOk fetchConn [c1dupA, c1dupB] "i.jpg" "IMGD"
      false none "iqdb" none none ⟨[], []⟩).result := by
  refine ⟨by rfl, by rfl, by rfl, by rfl, by decide, by decide, by rfl, by rfl, by decide⟩

end IqdbTagger
